import Mathlib

/-!
# Verification of the job-finder-shared-types runtime schema validators

A shallow embedding of the repository's runtime type-guard layer
(`guards.ts`, the guard file re-exported through it, and the helper guards
in `queue.types.ts`) over a model of JavaScript runtime values, together
with theorems settling the frozen claims about that layer.

The guards inspect untyped JavaScript values: the model `JSValue` captures
the value shapes the guards distinguish (undefined, null, booleans, numbers,
strings, arrays, plain objects, `Date` instances and callables).  A `Date`
instance carries its time value; `none` models an invalid `Date` whose time
value is NaN.  Plain objects are association lists of own properties;
property access, the `in` operator, `typeof`, `Array.isArray`, truthiness
and strict equality against a string literal are modelled below exactly as
JavaScript defines them on these shapes.
-/

/-- A JavaScript runtime value, as far as the guard functions distinguish
values.  `jsDate none` is an invalid `Date` (time value NaN); `jsDate (some t)`
a valid `Date` with time value `t` in milliseconds since the epoch. -/
inductive JSValue : Type where
  | undefined : JSValue
  | null : JSValue
  | boolean : Bool → JSValue
  | number : Int → JSValue
  | string : String → JSValue
  | array : List JSValue → JSValue
  | object : List (String × JSValue) → JSValue
  | jsDate : Option Int → JSValue
  | jsFunction : JSValue

/-- JavaScript's `typeof` operator on the modelled shapes. -/
def typeofStr : JSValue → String
  | .undefined => "undefined"
  | .null => "object"
  | .boolean _ => "boolean"
  | .number _ => "number"
  | .string _ => "string"
  | .array _ => "object"
  | .object _ => "object"
  | .jsDate _ => "object"
  | .jsFunction => "function"

/-- JavaScript truthiness (`!value` is `!truthy value`). -/
def truthy : JSValue → Bool
  | .undefined => false
  | .null => false
  | .boolean b => b
  | .number n => n != 0
  | .string s => s != ""
  | .array _ => true
  | .object _ => true
  | .jsDate _ => true
  | .jsFunction => true

/-- First binding of a property name in an object's property list
(later duplicates are shadowed, as in a JavaScript object literal). -/
def lookupField : List (String × JSValue) → String → JSValue
  | [], _ => .undefined
  | (k, v) :: rest, key => if k = key then v else lookupField rest key

/-- Property access `value[key]`.  On a plain object it reads the own
property; on the other shapes the guards touch (arrays, `Date` instances,
strings) none of the accessed names is an own property, so the access
yields `undefined`. -/
def getField : JSValue → String → JSValue
  | .object fields, key => lookupField fields key
  | .undefined, _ => .undefined
  | .null, _ => .undefined
  | .boolean _, _ => .undefined
  | .number _, _ => .undefined
  | .string _, _ => .undefined
  | .array _, _ => .undefined
  | .jsDate _, _ => .undefined
  | .jsFunction, _ => .undefined

/-- The `in` operator: `key in value` for the shapes the guards test it on. -/
def hasField : JSValue → String → Bool
  | .object fields, key => fields.any (fun p => p.1 == key)
  | .undefined, _ => false
  | .null, _ => false
  | .boolean _, _ => false
  | .number _, _ => false
  | .string _, _ => false
  | .array _, _ => false
  | .jsDate _, _ => false
  | .jsFunction, _ => false

/-- `Array.isArray(value)`. -/
def isArrayVal : JSValue → Bool
  | .array _ => true
  | _ => false

/-- `value === null`. -/
def isNullVal : JSValue → Bool
  | .null => true
  | _ => false

/-- `value instanceof Date`. -/
def isInstanceOfDate : JSValue → Bool
  | .jsDate _ => true
  | _ => false

/-- Strict equality `value === "s"` against a string literal. -/
def strictEqStr (value : JSValue) (s : String) : Bool :=
  match value with
  | .string x => x == s
  | _ => false

/-! ## Guards of `queue.types.ts` -/

/-- `isQueueStatus` (queue.types.ts): membership in the `QueueStatus`
literal list. -/
def isQueueStatus (status : String) : Bool :=
  ["pending", "processing", "success", "failed", "skipped"].contains status

/-- `isQueueItemType` (queue.types.ts): membership in the `QueueItemType`
literal list. -/
def isQueueItemType (type : String) : Bool :=
  ["job", "company"].contains type

/-- `isQueueStatus` as applied to an untyped value (`isQueueItem` passes
`item.status as string`; the `as` cast is erased at runtime, and
`Array.prototype.includes` compares by strict equality, so a non-string
argument is simply not found). -/
def isQueueStatusJS : JSValue → Bool
  | .string s => isQueueStatus s
  | _ => false

/-- `isQueueItemType` as applied to an untyped value (see
`isQueueStatusJS`). -/
def isQueueItemTypeJS : JSValue → Bool
  | .string s => isQueueItemType s
  | _ => false

/-- The five literals of the `QueueSource` union type as declared in
`queue.types.ts`. -/
def queueSourceLiterals : List String :=
  ["user_submission", "automated_scan", "scraper", "webhook", "email"]

/-! ## Guards of the guard module (`isObject` … `isContentItem`) -/

/-- `isObject`: non-null, non-array value of object kind. -/
def isObject (value : JSValue) : Bool :=
  typeofStr value == "object" && !(isNullVal value) && !(isArrayVal value)

/-- `isStringArray`: an array whose every element is a string. -/
def isStringArray (value : JSValue) : Bool :=
  isArrayVal value &&
    (match value with
     | .array items => items.all (fun item => typeofStr item == "string")
     | _ => false)

/-- `isDateLike`: a `Date` instance (no validity check), or an object with
numeric `seconds`, numeric `nanoseconds` and a callable `toDate`. -/
def isDateLike (value : JSValue) : Bool :=
  if isInstanceOfDate value then true
  else if !(isObject value) then false
  else
    typeofStr (getField value "seconds") == "number" &&
    typeofStr (getField value "nanoseconds") == "number" &&
    typeofStr (getField value "toDate") == "function"

/-- `isQueueSource`: membership of a string in the guard's literal list
(which holds seven literals, two more than the declared `QueueSource`
union). -/
def isQueueSource (value : JSValue) : Bool :=
  typeofStr value == "string" &&
    (match value with
     | .string s =>
         ["user_submission", "automated_scan", "scraper", "webhook", "email",
          "manual_submission", "user_request"].contains s
     | _ => false)

/-- `isQueueItem`: the required-field check of the queue-item guard. -/
def isQueueItem (value : JSValue) : Bool :=
  if !(isObject value) then false
  else
    isQueueItemTypeJS (getField value "type") &&
    isQueueStatusJS (getField value "status") &&
    typeofStr (getField value "url") == "string" &&
    typeofStr (getField value "company_name") == "string" &&
    (isNullVal (getField value "company_id") ||
      typeofStr (getField value "company_id") == "string") &&
    isQueueSource (getField value "source") &&
    (isNullVal (getField value "submitted_by") ||
      typeofStr (getField value "submitted_by") == "string") &&
    typeofStr (getField value "retry_count") == "number" &&
    typeofStr (getField value "max_retries") == "number" &&
    isDateLike (getField value "created_at") &&
    isDateLike (getField value "updated_at")

/-- `isStopList`. -/
def isStopList (value : JSValue) : Bool :=
  if !(isObject value) then false
  else
    isStringArray (getField value "excludedCompanies") &&
    isStringArray (getField value "excludedKeywords") &&
    isStringArray (getField value "excludedDomains")

/-- `isQueueSettings`. -/
def isQueueSettings (value : JSValue) : Bool :=
  if !(isObject value) then false
  else
    typeofStr (getField value "maxRetries") == "number" &&
    typeofStr (getField value "retryDelaySeconds") == "number" &&
    typeofStr (getField value "processingTimeout") == "number"

/-- `isAIProvider`. -/
def isAIProvider (value : JSValue) : Bool :=
  typeofStr value == "string" &&
    (match value with
     | .string s => ["claude", "openai", "gemini"].contains s
     | _ => false)

/-- `isAISettings`. -/
def isAISettings (value : JSValue) : Bool :=
  if !(isObject value) then false
  else
    isAIProvider (getField value "provider") &&
    typeofStr (getField value "model") == "string" &&
    typeofStr (getField value "minMatchScore") == "number" &&
    typeofStr (getField value "costBudgetDaily") == "number"

/-- `isExperienceHighlight`. -/
def isExperienceHighlight (value : JSValue) : Bool :=
  if !(isObject value) then false
  else
    typeofStr (getField value "company") == "string" &&
    typeofStr (getField value "title") == "string" &&
    isStringArray (getField value "pointsToEmphasize")

/-- `isProjectRecommendation`. -/
def isProjectRecommendation (value : JSValue) : Bool :=
  if !(isObject value) then false
  else
    typeofStr (getField value "name") == "string" &&
    typeofStr (getField value "whyRelevant") == "string" &&
    isStringArray (getField value "pointsToHighlight")

/-- `isGapMitigation`. -/
def isGapMitigation (value : JSValue) : Bool :=
  if !(isObject value) then false
  else
    typeofStr (getField value "missingSkill") == "string" &&
    typeofStr (getField value "mitigationStrategy") == "string" &&
    typeofStr (getField value "coverLetterPoint") == "string"

/-- `isResumeIntakeData`. -/
def isResumeIntakeData (value : JSValue) : Bool :=
  if !(isObject value) then false
  else
    typeofStr (getField value "jobId") == "string" &&
    typeofStr (getField value "jobTitle") == "string" &&
    typeofStr (getField value "company") == "string" &&
    typeofStr (getField value "targetSummary") == "string" &&
    isStringArray (getField value "skillsPriority") &&
    isArrayVal (getField value "experienceHighlights") &&
    (match getField value "experienceHighlights" with
     | .array items => items.all isExperienceHighlight
     | _ => false) &&
    isArrayVal (getField value "projectsToInclude") &&
    (match getField value "projectsToInclude" with
     | .array items => items.all isProjectRecommendation
     | _ => false) &&
    isStringArray (getField value "achievementAngles") &&
    isStringArray (getField value "atsKeywords")

/-- `isJobListing`. -/
def isJobListing (value : JSValue) : Bool :=
  if !(isObject value) then false
  else
    typeofStr (getField value "title") == "string" &&
    typeofStr (getField value "company") == "string" &&
    typeofStr (getField value "companyWebsite") == "string" &&
    typeofStr (getField value "location") == "string" &&
    typeofStr (getField value "description") == "string" &&
    typeofStr (getField value "url") == "string"

/-- `isJobMatch`. -/
def isJobMatch (value : JSValue) : Bool :=
  if !(isObject value) then false
  else
    typeofStr (getField value "url") == "string" &&
    typeofStr (getField value "companyName") == "string" &&
    typeofStr (getField value "jobTitle") == "string" &&
    typeofStr (getField value "jobDescription") == "string" &&
    typeofStr (getField value "matchScore") == "number" &&
    isStringArray (getField value "matchedSkills") &&
    isStringArray (getField value "missingSkills") &&
    isStringArray (getField value "matchReasons") &&
    isStringArray (getField value "keyStrengths") &&
    isStringArray (getField value "potentialConcerns") &&
    typeofStr (getField value "experienceMatch") == "number" &&
    (strictEqStr (getField value "applicationPriority") "High" ||
     strictEqStr (getField value "applicationPriority") "Medium" ||
     strictEqStr (getField value "applicationPriority") "Low") &&
    isStringArray (getField value "customizationRecommendations") &&
    isDateLike (getField value "analyzedAt") &&
    isDateLike (getField value "createdAt") &&
    (isNullVal (getField value "submittedBy") ||
      typeofStr (getField value "submittedBy") == "string") &&
    typeofStr (getField value "queueItemId") == "string"

/-- `isCompany`. -/
def isCompany (value : JSValue) : Bool :=
  if !(isObject value) then false
  else
    typeofStr (getField value "name") == "string" &&
    typeofStr (getField value "website") == "string"

/-- `isContentItemType`: membership in the six content-item discriminator
literals. -/
def isContentItemType (value : JSValue) : Bool :=
  typeofStr value == "string" &&
    (match value with
     | .string s =>
         ["company", "project", "skill-group", "education", "profile-section",
          "accomplishment"].contains s
     | _ => false)

/-- `isContentItemVisibility`. -/
def isContentItemVisibility (value : JSValue) : Bool :=
  typeofStr value == "string" &&
    (match value with
     | .string s => ["published", "draft", "archived"].contains s
     | _ => false)

/-- `hasBaseContentItemFields`: the shared base-field check of the six
content-item variant guards. -/
def hasBaseContentItemFields (value : JSValue) : Bool :=
  typeofStr (getField value "id") == "string" &&
  isContentItemType (getField value "type") &&
  typeofStr (getField value "userId") == "string" &&
  (isNullVal (getField value "parentId") ||
    typeofStr (getField value "parentId") == "string") &&
  typeofStr (getField value "order") == "number" &&
  isDateLike (getField value "createdAt") &&
  isDateLike (getField value "updatedAt") &&
  typeofStr (getField value "createdBy") == "string" &&
  typeofStr (getField value "updatedBy") == "string"

/-- The variant-specific required-field check of `isCompanyItem`. -/
def companyRequiredFields (value : JSValue) : Bool :=
  typeofStr (getField value "company") == "string" &&
  typeofStr (getField value "startDate") == "string"

/-- `isCompanyItem`. -/
def isCompanyItem (value : JSValue) : Bool :=
  if !(isObject value) then false
  else if !(hasBaseContentItemFields value) then false
  else strictEqStr (getField value "type") "company" && companyRequiredFields value

/-- The variant-specific required-field check of `isProjectItem`. -/
def projectRequiredFields (value : JSValue) : Bool :=
  typeofStr (getField value "name") == "string" &&
  typeofStr (getField value "description") == "string"

/-- `isProjectItem`. -/
def isProjectItem (value : JSValue) : Bool :=
  if !(isObject value) then false
  else if !(hasBaseContentItemFields value) then false
  else strictEqStr (getField value "type") "project" && projectRequiredFields value

/-- The variant-specific required-field check of `isSkillGroupItem`. -/
def skillGroupRequiredFields (value : JSValue) : Bool :=
  typeofStr (getField value "category") == "string" &&
  isStringArray (getField value "skills")

/-- `isSkillGroupItem`. -/
def isSkillGroupItem (value : JSValue) : Bool :=
  if !(isObject value) then false
  else if !(hasBaseContentItemFields value) then false
  else strictEqStr (getField value "type") "skill-group" && skillGroupRequiredFields value

/-- The variant-specific required-field check of `isEducationItem`. -/
def educationRequiredFields (value : JSValue) : Bool :=
  typeofStr (getField value "institution") == "string"

/-- `isEducationItem`. -/
def isEducationItem (value : JSValue) : Bool :=
  if !(isObject value) then false
  else if !(hasBaseContentItemFields value) then false
  else strictEqStr (getField value "type") "education" && educationRequiredFields value

/-- The variant-specific required-field check of `isProfileSectionItem`. -/
def profileSectionRequiredFields (value : JSValue) : Bool :=
  typeofStr (getField value "heading") == "string" &&
  typeofStr (getField value "content") == "string"

/-- `isProfileSectionItem`. -/
def isProfileSectionItem (value : JSValue) : Bool :=
  if !(isObject value) then false
  else if !(hasBaseContentItemFields value) then false
  else strictEqStr (getField value "type") "profile-section" && profileSectionRequiredFields value

/-- The variant-specific required-field check of `isAccomplishmentItem`. -/
def accomplishmentRequiredFields (value : JSValue) : Bool :=
  typeofStr (getField value "description") == "string"

/-- `isAccomplishmentItem`. -/
def isAccomplishmentItem (value : JSValue) : Bool :=
  if !(isObject value) then false
  else if !(hasBaseContentItemFields value) then false
  else strictEqStr (getField value "type") "accomplishment" && accomplishmentRequiredFields value

/-- `isContentItem`: the six variant guards tried in order. -/
def isContentItem (value : JSValue) : Bool :=
  isCompanyItem value ||
  isProjectItem value ||
  isSkillGroupItem value ||
  isEducationItem value ||
  isProfileSectionItem value ||
  isAccomplishmentItem value

/-! ## Guards and constructors of `guards.ts` -/

/-- `isApiResponse`: the two-armed envelope validator. -/
def isApiResponse (value : JSValue) : Bool :=
  if !(truthy value) || typeofStr value != "object" then false
  else
    match getField value "success" with
    | .boolean true => hasField value "data"
    | .boolean false =>
        let error := getField value "error"
        if !(truthy error) || typeofStr error != "object" then false
        else
          typeofStr (getField error "code") == "string" &&
          typeofStr (getField error "message") == "string"
    | _ => false

/-- `isDate`: a `Date` instance whose time value is not NaN. -/
def isDate (value : JSValue) : Bool :=
  match value with
  | .jsDate t => t.isSome
  | _ => false

/-- `createSuccessResponse(data, message?)`.  The spread
`...(message && { message })` omits the `message` key when the argument is
absent or the empty string (a falsy string). -/
def createSuccessResponse (data : JSValue) (message : Option String) : JSValue :=
  .object ([("success", .boolean true), ("data", data)] ++
    (match message with
     | some m => if m == "" then [] else [("message", .string m)]
     | none => []))

/-- `createErrorResponse(code, message, details?)`.  The spread
`...(details && { details })` omits the `details` key when the argument is
absent or falsy. -/
def createErrorResponse (code : String) (message : String)
    (details : Option JSValue) : JSValue :=
  .object [("success", .boolean false),
    ("error", .object ([("code", .string code), ("message", .string message)] ++
      (match details with
       | some d => if truthy d then [("details", d)] else []
       | none => [])))]

/-! ## The JavaScript `Date` built-in

`isISODateString` calls `new Date(value)` and `Date.prototype.toISOString`.
Both are modelled from their ECMA-262 definitions.

* `jsToISOString` is ECMA-262's `toISOString`: the canonical
  `YYYY-MM-DDTHH:mm:ss.sssZ` rendering of the time value, with an expanded
  `±YYYYYY` year outside 0..9999.
* `jsDateParse` is ECMA-262's parse of the Date Time String Format
  (`YYYY[-MM[-DD]][THH:mm[:ss[.sss]][Z|±HH:mm]]`, expanded years included):
  a date-only string is interpreted as UTC, and the time value is clipped to
  ±8.64·10¹⁵ ms.  Two host-dependent behaviours are fixed in a way that
  cannot change the guard's verdict:
  a string outside the standardised format (implementation-defined fallback
  parsing) is modelled as a failed parse — such a string can never equal the
  canonical `toISOString` re-rendering, so the guard yields false for it
  either way; and a date-time string carrying no UTC offset (interpreted in
  the host's local zone) is given offset zero — such a string lacks the
  trailing `Z` of the canonical rendering, so the guard again yields false
  for it regardless of the zone chosen. -/

/-- Days from the epoch of a proleptic-Gregorian civil date
(era decomposition). -/
def daysFromCivil (y m d : Int) : Int :=
  let yAdj : Int := if m ≤ 2 then y - 1 else y
  let era : Int := yAdj.fdiv 400
  let yoe : Int := yAdj - era * 400
  let mp : Int := (m + 9).emod 12
  let doy : Int := (153 * mp + 2).fdiv 5 + (d - 1)
  let doe : Int := yoe * 365 + yoe.fdiv 4 - yoe.fdiv 100 + doy
  era * 146097 + doe - 719468

/-- Civil date (year, month, day) of a day count from the epoch. -/
def civilFromDays (z0 : Int) : Int × Int × Int :=
  let z : Int := z0 + 719468
  let era : Int := z.fdiv 146097
  let doe : Int := z - era * 146097
  let yoe : Int := (doe - doe.fdiv 1460 + doe.fdiv 36524 - doe.fdiv 146096).fdiv 365
  let y : Int := yoe + era * 400
  let doy : Int := doe - (365 * yoe + yoe.fdiv 4 - yoe.fdiv 100)
  let mp : Int := (5 * doy + 2).fdiv 153
  let d : Int := doy - (153 * mp + 2).fdiv 5 + 1
  let m : Int := if mp < 10 then mp + 3 else mp - 9
  (if m ≤ 2 then y + 1 else y, m, d)

/-- The decimal digit character of `n % 10`. -/
def digitChar (n : Nat) : Char := Char.ofNat (48 + n % 10)

/-- Two-digit zero-padded decimal rendering. -/
def pad2 (n : Nat) : String := String.mk [digitChar (n / 10), digitChar n]

/-- Three-digit zero-padded decimal rendering. -/
def pad3 (n : Nat) : String :=
  String.mk [digitChar (n / 100), digitChar (n / 10), digitChar n]

/-- Four-digit zero-padded decimal rendering. -/
def pad4 (n : Nat) : String :=
  String.mk [digitChar (n / 1000), digitChar (n / 100), digitChar (n / 10), digitChar n]

/-- Six-digit zero-padded decimal rendering. -/
def pad6 (n : Nat) : String :=
  String.mk [digitChar (n / 100000), digitChar (n / 10000), digitChar (n / 1000),
    digitChar (n / 100), digitChar (n / 10), digitChar n]

/-- `Date.prototype.toISOString` on a (finite) time value in milliseconds. -/
def jsToISOString (t : Int) : String :=
  let days : Int := t.fdiv 86400000
  let msOfDay : Nat := (t.fmod 86400000).toNat
  let ymd := civilFromDays days
  let y : Int := ymd.1
  let yearStr : String :=
    if 0 ≤ y ∧ y ≤ 9999 then pad4 y.toNat
    else if y < 0 then "-" ++ pad6 (-y).toNat
    else "+" ++ pad6 y.toNat
  yearStr ++ "-" ++ pad2 ymd.2.1.toNat ++ "-" ++ pad2 ymd.2.2.toNat ++
    "T" ++ pad2 (msOfDay / 3600000) ++ ":" ++ pad2 (msOfDay / 60000 % 60) ++
    ":" ++ pad2 (msOfDay / 1000 % 60) ++ "." ++ pad3 (msOfDay % 1000) ++ "Z"

/-- Whether a character is a decimal digit. -/
def isDigitChar (c : Char) : Bool := '0' ≤ c && c ≤ '9'

/-- Numeric value of a decimal digit character. -/
def digitVal (c : Char) : Nat := c.toNat - 48

/-- Read exactly `n` decimal digits, most significant first. -/
def readDigits : Nat → Nat → List Char → Option (Nat × List Char)
  | 0, acc, cs => some (acc, cs)
  | n + 1, acc, c :: cs =>
      if isDigitChar c then readDigits n (acc * 10 + digitVal c) cs else none
  | _ + 1, _, [] => none

/-- The year field: four digits, or a sign and six digits (`-000000`
is rejected, as ECMA-262 requires). -/
def parseYear : List Char → Option (Int × List Char)
  | '+' :: cs => (readDigits 6 0 cs).map (fun p => ((p.1 : Int), p.2))
  | '-' :: cs =>
      (readDigits 6 0 cs).bind
        (fun p => if p.1 == 0 then none else some ((-(p.1 : Int)), p.2))
  | cs => (readDigits 4 0 cs).map (fun p => ((p.1 : Int), p.2))

/-- The optional `-MM[-DD]` fields (month and day default to 1). -/
def parseMonthDay : List Char → Option (Nat × Nat × List Char)
  | '-' :: cs1 =>
      match readDigits 2 0 cs1 with
      | none => none
      | some (m, cs2) =>
          if m < 1 || 12 < m then none
          else
            match cs2 with
            | '-' :: cs3 =>
                match readDigits 2 0 cs3 with
                | none => none
                | some (d, cs4) => if d < 1 || 31 < d then none else some (m, d, cs4)
            | cs2 => some (m, 1, cs2)
  | cs => some (1, 1, cs)

/-- The optional `.sss` millisecond field. -/
def parseFraction : List Char → Option (Nat × List Char)
  | '.' :: cs => readDigits 3 0 cs
  | cs => some (0, cs)

/-- The optional `:ss[.sss]` fields. -/
def parseSeconds : List Char → Option (Nat × Nat × List Char)
  | ':' :: cs =>
      match readDigits 2 0 cs with
      | none => none
      | some (s, cs1) =>
          if 59 < s then none
          else
            match parseFraction cs1 with
            | none => none
            | some (ms, cs2) => some (s, ms, cs2)
  | cs => some (0, 0, cs)

/-- The `HH:mm` of a numeric UTC offset. -/
def parseOffsetHM (cs : List Char) : Option (Nat × List Char) :=
  match readDigits 2 0 cs with
  | none => none
  | some (h, cs1) =>
      if 23 < h then none
      else
        match cs1 with
        | ':' :: cs2 =>
            match readDigits 2 0 cs2 with
            | none => none
            | some (mi, cs3) => if 59 < mi then none else some (h * 60 + mi, cs3)
        | _ => none

/-- The optional UTC offset in minutes; a missing offset is the host zone,
fixed to UTC here (see the modelling note above). -/
def parseTimeZone : List Char → Option (Int × List Char)
  | [] => some (0, [])
  | 'Z' :: cs => some (0, cs)
  | '+' :: cs => (parseOffsetHM cs).map (fun p => ((p.1 : Int), p.2))
  | '-' :: cs => (parseOffsetHM cs).map (fun p => (-(p.1 : Int), p.2))
  | _ => none

/-- The `HH:mm[:ss[.sss]][offset]` time part: milliseconds into the day and
the UTC offset in minutes. -/
def parseTime (cs : List Char) : Option (Nat × Int × List Char) :=
  match readDigits 2 0 cs with
  | none => none
  | some (h, cs1) =>
      if 23 < h then none
      else
        match cs1 with
        | ':' :: cs2 =>
            match readDigits 2 0 cs2 with
            | none => none
            | some (mi, cs3) =>
                if 59 < mi then none
                else
                  match parseSeconds cs3 with
                  | none => none
                  | some (s, ms, cs4) =>
                      match parseTimeZone cs4 with
                      | none => none
                      | some (off, cs5) =>
                          some (((h * 60 + mi) * 60 + s) * 1000 + ms, off, cs5)
        | _ => none

/-- The time value of `new Date(str)` for a Date Time String Format string
(`none` for NaN: a malformed string or a clipped-out-of-range value). -/
def jsDateParse (str : String) : Option Int :=
  match parseYear str.data with
  | none => none
  | some (y, cs1) =>
      match parseMonthDay cs1 with
      | none => none
      | some (m, d, cs2) =>
          match cs2 with
          | [] =>
              let t : Int := daysFromCivil y (m : Int) (d : Int) * 86400000
              if t.natAbs ≤ 8640000000000000 then some t else none
          | 'T' :: cs3 =>
              match parseTime cs3 with
              | none => none
              | some (msOfDay, off, cs4) =>
                  match cs4 with
                  | [] =>
                      let t : Int :=
                        daysFromCivil y (m : Int) (d : Int) * 86400000 +
                          (msOfDay : Int) - off * 60000
                      if t.natAbs ≤ 8640000000000000 then some t else none
                  | _ => none
          | _ => none

/-- `isISODateString`: a string that parses to a valid date and whose
canonical ISO re-rendering is the exact input. -/
def isISODateString (value : JSValue) : Bool :=
  match value with
  | .string s =>
      match jsDateParse s with
      | none => false
      | some t => jsToISOString t == s
  | _ => false

/-! ## Sample values used by the concrete parts of the theorems -/

/-- A queue item whose required fields all pass and whose two mandatory
timestamps are invalid `Date` instances (time value NaN). -/
def invalidDateQueueItem : JSValue :=
  .object [("type", .string "job"), ("status", .string "pending"),
    ("url", .string "https://example.com/job/1"), ("company_name", .string "Acme"),
    ("company_id", .null), ("source", .string "user_submission"),
    ("submitted_by", .null), ("retry_count", .number 0), ("max_retries", .number 3),
    ("created_at", .jsDate none), ("updated_at", .jsDate none)]

/-- A job match whose required fields all pass and whose two mandatory
timestamps are invalid `Date` instances. -/
def invalidDateJobMatch : JSValue :=
  .object [("url", .string "https://example.com/job/1"),
    ("companyName", .string "Acme"), ("jobTitle", .string "Engineer"),
    ("jobDescription", .string "desc"), ("matchScore", .number 90),
    ("matchedSkills", .array [.string "lean"]), ("missingSkills", .array []),
    ("matchReasons", .array []), ("keyStrengths", .array []),
    ("potentialConcerns", .array []), ("experienceMatch", .number 80),
    ("applicationPriority", .string "High"),
    ("customizationRecommendations", .array []),
    ("analyzedAt", .jsDate none), ("createdAt", .jsDate none),
    ("submittedBy", .null), ("queueItemId", .string "q1")]

/-- A skill-group content item whose fields all pass and whose mandatory
timestamps are invalid `Date` instances. -/
def invalidDateSkillGroupItem : JSValue :=
  .object [("id", .string "i1"), ("type", .string "skill-group"),
    ("userId", .string "u1"), ("parentId", .null), ("order", .number 0),
    ("createdAt", .jsDate none), ("updatedAt", .jsDate none),
    ("createdBy", .string "u1"), ("updatedBy", .string "u1"),
    ("category", .string "languages"), ("skills", .array [.string "lean"])]

/-- A value with valid base content-item fields except that its `type`
discriminator, `"certification"`, is none of the six declared literals. -/
def unknownTypeContentItem : JSValue :=
  .object [("id", .string "c1"), ("type", .string "certification"),
    ("userId", .string "u1"), ("parentId", .null), ("order", .number 1),
    ("createdAt", .jsDate (some 0)), ("updatedAt", .jsDate (some 0)),
    ("createdBy", .string "u1"), ("updatedBy", .string "u1")]

/-- A value whose discriminator is `"skill-group"` and whose base fields are
valid, but which lacks the variant's required `category` and `skills`. -/
def missingFieldSkillGroupItem : JSValue :=
  .object [("id", .string "c2"), ("type", .string "skill-group"),
    ("userId", .string "u1"), ("parentId", .null), ("order", .number 1),
    ("createdAt", .jsDate (some 0)), ("updatedAt", .jsDate (some 0)),
    ("createdBy", .string "u1"), ("updatedBy", .string "u1")]

/-- The optional keys of the `QueueItem` interface. -/
def queueItemOptionalKeys : List String :=
  ["id", "result_message", "error_details", "processed_at", "completed_at"]

/-- A queue item whose required fields pass and whose optional fields are
present with wrong types (`processed_at` a number, `error_details` an
object, `completed_at` a string, `id` a number, `result_message` an
array). -/
def wrongTypedOptionalsQueueItem : JSValue :=
  .object [("id", .number 7), ("type", .string "job"), ("status", .string "pending"),
    ("url", .string "https://example.com/job/2"), ("company_name", .string "Acme"),
    ("company_id", .string "co_1"), ("source", .string "scraper"),
    ("submitted_by", .string "user_1"), ("retry_count", .number 1),
    ("max_retries", .number 3), ("result_message", .array [.number 1]),
    ("error_details", .object [("oops", .boolean true)]),
    ("processed_at", .number 5), ("completed_at", .string "yesterday"),
    ("created_at", .jsDate (some 1704067200000)),
    ("updated_at", .object [("seconds", .number 1704067200), ("nanoseconds", .number 0),
      ("toDate", .jsFunction)])]

/-! ## Theorems settling the claims -/

/-- C2: round-trip consistency of the envelope constructors and the
validator — for every payload and optional message,
`isApiResponse (createSuccessResponse data message)` is true, and for every
code, message and optional details,
`isApiResponse (createErrorResponse code message details)` is true. -/
theorem constructors_pass_isApiResponse :
    (∀ (data : JSValue) (message : Option String),
      isApiResponse (createSuccessResponse data message) = true) ∧
    (∀ (code message : String) (details : Option JSValue),
      isApiResponse (createErrorResponse code message details) = true) :=
  ⟨fun _ _ => rfl, fun _ _ _ => rfl⟩

/-- C3 counterexample: the claim's enumerations list `"filtered"` as a
queue status and `"scrape"` as a queue item type, but the guards in
queue.types.ts reject both strings. -/
theorem queueEnumGuards_cex :
    isQueueStatus "filtered" = false ∧ isQueueItemType "scrape" = false := by
  decide

/-- C3 (amended): `isQueueStatus` accepts exactly the five literals
pending, processing, success, failed, skipped, and `isQueueItemType`
accepts exactly the two literals job, company. -/
theorem queueEnumGuards_exact :
    (∀ s, isQueueStatus s = true ↔
      (s = "pending" ∨ s = "processing" ∨ s = "success" ∨ s = "failed" ∨
        s = "skipped")) ∧
    (∀ t, isQueueItemType t = true ↔ (t = "job" ∨ t = "company")) := by
  constructor
  · intro s
    simp [isQueueStatus, List.contains, List.elem_iff, List.mem_cons]
  · intro t
    simp [isQueueItemType, List.contains, List.elem_iff, List.mem_cons]

/-- C4: the `isQueueSource` guard has drifted from the declared
`QueueSource` union — it accepts the strings `"manual_submission"` and
`"user_request"`, neither of which is among the five declared literals. -/
theorem queueSourceGuard_drift :
    isQueueSource (.string "manual_submission") = true ∧
    queueSourceLiterals.contains "manual_submission" = false ∧
    isQueueSource (.string "user_request") = true ∧
    queueSourceLiterals.contains "user_request" = false ∧
    (∀ s, s ∈ queueSourceLiterals → isQueueSource (.string s) = true) := by
  refine ⟨by decide, by decide, by decide, by decide, ?_⟩
  intro s hs
  simp [queueSourceLiterals, List.mem_cons] at hs
  rcases hs with rfl | rfl | rfl | rfl | rfl <;> decide

/-- C9: `isDateLike` is true for every `Date` instance regardless of
validity, so the entity guards accept records whose mandatory timestamps
are invalid `Date` objects, whereas `isDate` rejects exactly the invalid
`Date` instances. -/
theorem dateLike_accepts_invalid_dates :
    (∀ t, isDateLike (.jsDate t) = true) ∧
    (∀ t, isDate (.jsDate t) = t.isSome) ∧
    isDate (.jsDate none) = false ∧
    isQueueItem invalidDateQueueItem = true ∧
    isJobMatch invalidDateJobMatch = true ∧
    isSkillGroupItem invalidDateSkillGroupItem = true ∧
    isContentItem invalidDateSkillGroupItem = true := by
  refine ⟨fun t => rfl, fun t => rfl, by decide, by decide, by decide, by decide, by decide⟩
/-- The validation condition of C1, written from the claim: a non-null
object value whose `success` field is a boolean; when `success` is true the
value has a `data` key; when `success` is false its `error` field is a
non-null object whose `code` and `message` fields are strings. -/
def ApiResponseSpec (v : JSValue) : Prop :=
  typeofStr v = "object" ∧ v ≠ JSValue.null ∧
  (∃ b, getField v "success" = JSValue.boolean b) ∧
  (getField v "success" = JSValue.boolean true → hasField v "data" = true) ∧
  (getField v "success" = JSValue.boolean false →
    typeofStr (getField v "error") = "object" ∧
    getField v "error" ≠ JSValue.null ∧
    typeofStr (getField (getField v "error") "code") = "string" ∧
    typeofStr (getField (getField v "error") "message") = "string")

/-- C1: `isApiResponse` accepts exactly the values satisfying the claim's
condition, and decides the claim's five sample inputs as stated. -/
theorem isApiResponse_characterisation :
    (∀ v, isApiResponse v = true ↔ ApiResponseSpec v) ∧
    isApiResponse (.object [("success", .boolean true), ("data", .object [])]) = true ∧
    isApiResponse (.object [("success", .boolean true)]) = false ∧
    isApiResponse (.object [("success", .boolean false),
      ("error", .object [("code", .string "X"), ("message", .string "m")])]) = true ∧
    isApiResponse (.object [("success", .boolean false),
      ("error", .object [("code", .string "X")])]) = false ∧
    isApiResponse (.object []) = false := by
  refine ⟨?_, by decide, by decide, by decide, by decide, by decide⟩
  intro v
  cases v with
  | object fs =>
      cases hs : lookupField fs "success" with
      | boolean b =>
          cases b with
          | true => simp [isApiResponse, ApiResponseSpec, getField, hs, typeofStr, truthy]
          | false =>
              cases he : lookupField fs "error" <;>
                simp [isApiResponse, ApiResponseSpec, getField, hs, he, typeofStr, truthy]
      | _ => simp [isApiResponse, ApiResponseSpec, getField, hs, typeofStr, truthy]
  | _ => simp [isApiResponse, ApiResponseSpec, getField, hasField, typeofStr, truthy]

/-- A strict string comparison that succeeds forces the compared value. -/
theorem strictEqStr_eq_string {v : JSValue} {s : String}
    (h : strictEqStr v s = true) : v = JSValue.string s := by
  cases v <;> simp_all [strictEqStr]

/-- A value accepted by `isCompanyItem` carries the `"company"`
discriminator. -/
theorem isCompanyItem_type {v : JSValue} (h : isCompanyItem v = true) :
    getField v "type" = JSValue.string "company" := by
  unfold isCompanyItem at h
  split at h
  · exact absurd h Bool.false_ne_true
  split at h
  · exact absurd h Bool.false_ne_true
  simp only [Bool.and_eq_true] at h
  exact strictEqStr_eq_string h.1

/-- A value accepted by `isProjectItem` carries the `"project"`
discriminator. -/
theorem isProjectItem_type {v : JSValue} (h : isProjectItem v = true) :
    getField v "type" = JSValue.string "project" := by
  unfold isProjectItem at h
  split at h
  · exact absurd h Bool.false_ne_true
  split at h
  · exact absurd h Bool.false_ne_true
  simp only [Bool.and_eq_true] at h
  exact strictEqStr_eq_string h.1

/-- A value accepted by `isSkillGroupItem` carries the `"skill-group"`
discriminator. -/
theorem isSkillGroupItem_type {v : JSValue} (h : isSkillGroupItem v = true) :
    getField v "type" = JSValue.string "skill-group" := by
  unfold isSkillGroupItem at h
  split at h
  · exact absurd h Bool.false_ne_true
  split at h
  · exact absurd h Bool.false_ne_true
  simp only [Bool.and_eq_true] at h
  exact strictEqStr_eq_string h.1

/-- A value accepted by `isEducationItem` carries the `"education"`
discriminator. -/
theorem isEducationItem_type {v : JSValue} (h : isEducationItem v = true) :
    getField v "type" = JSValue.string "education" := by
  unfold isEducationItem at h
  split at h
  · exact absurd h Bool.false_ne_true
  split at h
  · exact absurd h Bool.false_ne_true
  simp only [Bool.and_eq_true] at h
  exact strictEqStr_eq_string h.1

/-- A value accepted by `isProfileSectionItem` carries the
`"profile-section"` discriminator. -/
theorem isProfileSectionItem_type {v : JSValue} (h : isProfileSectionItem v = true) :
    getField v "type" = JSValue.string "profile-section" := by
  unfold isProfileSectionItem at h
  split at h
  · exact absurd h Bool.false_ne_true
  split at h
  · exact absurd h Bool.false_ne_true
  simp only [Bool.and_eq_true] at h
  exact strictEqStr_eq_string h.1

/-- A value accepted by `isAccomplishmentItem` carries the
`"accomplishment"` discriminator. -/
theorem isAccomplishmentItem_type {v : JSValue} (h : isAccomplishmentItem v = true) :
    getField v "type" = JSValue.string "accomplishment" := by
  unfold isAccomplishmentItem at h
  split at h
  · exact absurd h Bool.false_ne_true
  split at h
  · exact absurd h Bool.false_ne_true
  simp only [Bool.and_eq_true] at h
  exact strictEqStr_eq_string h.1

/-- Two guards that force distinct discriminators cannot both accept a
value. -/
theorem variantPair_false {v : JSValue} {a b : Bool} {s t : String}
    (ha : a = true → getField v "type" = JSValue.string s)
    (hb : b = true → getField v "type" = JSValue.string t)
    (hst : s ≠ t) : (a && b) = false := by
  cases hA : a with
  | false => simp
  | true =>
      cases hB : b with
      | false => simp
      | true => exact absurd (JSValue.string.inj ((ha hA).symm.trans (hb hB))) hst

/-- C5: the six ContentItem variant guards are pairwise mutually
exclusive — no value satisfies two of them at once. -/
theorem contentItemGuards_mutually_exclusive (v : JSValue) :
    (isCompanyItem v && isProjectItem v) = false ∧
    (isCompanyItem v && isSkillGroupItem v) = false ∧
    (isCompanyItem v && isEducationItem v) = false ∧
    (isCompanyItem v && isProfileSectionItem v) = false ∧
    (isCompanyItem v && isAccomplishmentItem v) = false ∧
    (isProjectItem v && isSkillGroupItem v) = false ∧
    (isProjectItem v && isEducationItem v) = false ∧
    (isProjectItem v && isProfileSectionItem v) = false ∧
    (isProjectItem v && isAccomplishmentItem v) = false ∧
    (isSkillGroupItem v && isEducationItem v) = false ∧
    (isSkillGroupItem v && isProfileSectionItem v) = false ∧
    (isSkillGroupItem v && isAccomplishmentItem v) = false ∧
    (isEducationItem v && isProfileSectionItem v) = false ∧
    (isEducationItem v && isAccomplishmentItem v) = false ∧
    (isProfileSectionItem v && isAccomplishmentItem v) = false :=
  ⟨variantPair_false isCompanyItem_type isProjectItem_type (by decide),
   variantPair_false isCompanyItem_type isSkillGroupItem_type (by decide),
   variantPair_false isCompanyItem_type isEducationItem_type (by decide),
   variantPair_false isCompanyItem_type isProfileSectionItem_type (by decide),
   variantPair_false isCompanyItem_type isAccomplishmentItem_type (by decide),
   variantPair_false isProjectItem_type isSkillGroupItem_type (by decide),
   variantPair_false isProjectItem_type isEducationItem_type (by decide),
   variantPair_false isProjectItem_type isProfileSectionItem_type (by decide),
   variantPair_false isProjectItem_type isAccomplishmentItem_type (by decide),
   variantPair_false isSkillGroupItem_type isEducationItem_type (by decide),
   variantPair_false isSkillGroupItem_type isProfileSectionItem_type (by decide),
   variantPair_false isSkillGroupItem_type isAccomplishmentItem_type (by decide),
   variantPair_false isEducationItem_type isProfileSectionItem_type (by decide),
   variantPair_false isEducationItem_type isAccomplishmentItem_type (by decide),
   variantPair_false isProfileSectionItem_type isAccomplishmentItem_type (by decide)⟩

/-- C6: the union guard `isContentItem` rejects every value whose `type`
discriminator is none of the six literals, and every value whose
discriminator matches a variant but whose variant-specific required fields
fail; checked concretely on a value carrying the unrecognized seventh
discriminator `"certification"` with valid base fields, and on a
`"skill-group"`-tagged value with valid base fields but no `category` or
`skills`. -/
theorem contentItemGuard_rejects :
    (∀ v,
      (isContentItemType (getField v "type") = false ∨
       getField v "type" = JSValue.string "company" ∧ companyRequiredFields v = false ∨
       getField v "type" = JSValue.string "project" ∧ projectRequiredFields v = false ∨
       getField v "type" = JSValue.string "skill-group" ∧ skillGroupRequiredFields v = false ∨
       getField v "type" = JSValue.string "education" ∧ educationRequiredFields v = false ∨
       getField v "type" = JSValue.string "profile-section" ∧ profileSectionRequiredFields v = false ∨
       getField v "type" = JSValue.string "accomplishment" ∧ accomplishmentRequiredFields v = false) →
      isContentItem v = false) ∧
    isContentItemType (getField unknownTypeContentItem "type") = false ∧
    isContentItem unknownTypeContentItem = false ∧
    hasBaseContentItemFields missingFieldSkillGroupItem = true ∧
    isContentItem missingFieldSkillGroupItem = false := by
  refine ⟨?_, by decide, by decide, by decide, by decide⟩
  intro v h
  rcases h with h | ⟨ht, hr⟩ | ⟨ht, hr⟩ | ⟨ht, hr⟩ | ⟨ht, hr⟩ | ⟨ht, hr⟩ | ⟨ht, hr⟩
  · have hbase : hasBaseContentItemFields v = false := by
      simp [hasBaseContentItemFields, h]
    simp [isContentItem, isCompanyItem, isProjectItem, isSkillGroupItem,
      isEducationItem, isProfileSectionItem, isAccomplishmentItem, hbase]
  all_goals
    simp [isContentItem, isCompanyItem, isProjectItem, isSkillGroupItem,
      isEducationItem, isProfileSectionItem, isAccomplishmentItem, strictEqStr,
      ht, hr]

/-- C7: `isISODateString` is true exactly on strings that parse to a valid
date and whose canonical ISO-8601 re-rendering reproduces the exact input;
`"2024-01-01T00:00:00.000Z"` is accepted while `"2024-01-01"` is rejected
even though it parses to a valid date. -/
theorem isISODateString_roundtrip :
    (∀ v, isISODateString v = true ↔
      ∃ s t, v = JSValue.string s ∧ jsDateParse s = some t ∧ jsToISOString t = s) ∧
    isISODateString (.string "2024-01-01T00:00:00.000Z") = true ∧
    isISODateString (.string "2024-01-01") = false ∧
    (jsDateParse "2024-01-01").isSome = true := by
  refine ⟨?_, by decide, by decide, by decide⟩
  intro v
  cases v with
  | string s =>
      cases hp : jsDateParse s with
      | none => simp [isISODateString, hp]
      | some t =>
          simp only [isISODateString, hp, beq_iff_eq, JSValue.string.injEq]
          constructor
          · intro hts
            exact ⟨s, t, rfl, hp, hts⟩
          · rintro ⟨s1, t1, rfl, hp1, hts1⟩
            rw [hp] at hp1
            cases hp1
            exact hts1
  | _ => simp [isISODateString]

/-- C8: every entity guard (and `isApiResponse`) is a total boolean
predicate that yields false on every non-object top-level input — null,
undefined, a primitive, an array or a callable — rather than throwing;
checked concretely at `null`, the number `5`, `undefined` and a string. -/
theorem guards_false_on_nonobject :
    (∀ v, isObject v = false →
      isQueueItem v = false ∧ isStopList v = false ∧ isQueueSettings v = false ∧
      isAISettings v = false ∧ isExperienceHighlight v = false ∧
      isProjectRecommendation v = false ∧ isGapMitigation v = false ∧
      isResumeIntakeData v = false ∧ isJobListing v = false ∧
      isJobMatch v = false ∧ isCompany v = false ∧ isCompanyItem v = false ∧
      isProjectItem v = false ∧ isSkillGroupItem v = false ∧
      isEducationItem v = false ∧ isProfileSectionItem v = false ∧
      isAccomplishmentItem v = false ∧ isContentItem v = false ∧
      isApiResponse v = false) ∧
    isObject JSValue.null = false ∧
    isQueueItem JSValue.null = false ∧ isApiResponse JSValue.null = false ∧
    isApiResponse (.number 5) = false ∧ isContentItem JSValue.undefined = false ∧
    isQueueItem (.string "pending") = false ∧ isApiResponse (.array []) = false := by
  refine ⟨?_, by decide, by decide, by decide, by decide, by decide, by decide, by decide⟩
  intro v h
  refine ⟨?_, ?_, ?_, ?_, ?_, ?_, ?_, ?_, ?_, ?_, ?_, ?_, ?_, ?_, ?_, ?_, ?_, ?_, ?_⟩
  · simp [isQueueItem, h]
  · simp [isStopList, h]
  · simp [isQueueSettings, h]
  · simp [isAISettings, h]
  · simp [isExperienceHighlight, h]
  · simp [isProjectRecommendation, h]
  · simp [isGapMitigation, h]
  · simp [isResumeIntakeData, h]
  · simp [isJobListing, h]
  · simp [isJobMatch, h]
  · simp [isCompany, h]
  · simp [isCompanyItem, h]
  · simp [isProjectItem, h]
  · simp [isSkillGroupItem, h]
  · simp [isEducationItem, h]
  · simp [isProfileSectionItem, h]
  · simp [isAccomplishmentItem, h]
  · simp [isContentItem, isCompanyItem, isProjectItem, isSkillGroupItem,
      isEducationItem, isProfileSectionItem, isAccomplishmentItem, h]
  · cases v with
    | object fs => simp [isObject, typeofStr, isNullVal, isArrayVal] at h
    | jsDate t => simp [isObject, typeofStr, isNullVal, isArrayVal] at h
    | _ => simp [isApiResponse, truthy, typeofStr, getField]

/-- C10: `isQueueItem` never inspects the optional `QueueItem` fields —
prepending a binding for `id`, `result_message`, `error_details`,
`processed_at` or `completed_at` (with any value at all) to an object's
property list leaves the verdict unchanged, and a concrete item whose
required fields pass is accepted even with all five optional fields
present at wrong types. -/
theorem queueItem_ignores_optional_fields :
    (∀ (fields : List (String × JSValue)) (k : String) (val : JSValue),
      k ∈ queueItemOptionalKeys →
      isQueueItem (.object ((k, val) :: fields)) = isQueueItem (.object fields)) ∧
    isQueueItem wrongTypedOptionalsQueueItem = true := by
  refine ⟨?_, by decide⟩
  intro fields k val hk
  simp only [queueItemOptionalKeys, List.mem_cons, List.mem_singleton,
    List.not_mem_nil, or_false] at hk
  rcases hk with rfl | rfl | rfl | rfl | rfl <;>
    simp [isQueueItem, isObject, typeofStr, isNullVal, isArrayVal, getField,
      lookupField]
